import Mathlib

/-!
# Book Search App: cover-image resolver and search/pagination controller

A shallow embedding of `src/src/App.js`.

* `getBestImage` (App.js 60-82) is a pure function of a volume-info record.
* The React component state (`useState` cells, App.js 7-13) is the record
  `SearchState`.  An event handler runs against the values captured by the
  render that created it (the *snapshot*), and every setter call acts on the
  state that the next render will see (the *pending* state).  Functions that
  embed handler code therefore take both.
* State updates made by a handler are applied together when the handler returns; the
  component then renders again, and the effect with dependency list `[page]` runs when
  the page of the new render differs from the page of the previous one.
* `await axios.get(URL)` splits `searchBooks` into the synchronous part that
  issues the request and the continuation that consumes its outcome.
-/

namespace BookSearch

/-! ## Data model -/

/-- The six size keys of `volumeInfo.imageLinks` that `getBestImage` reads.
A key that is missing from the object is `none`. -/
structure ImageLinks where
  extraLarge : Option String := none
  large : Option String := none
  medium : Option String := none
  small : Option String := none
  thumbnail : Option String := none
  smallThumbnail : Option String := none
deriving DecidableEq

/-- One element of `volumeInfo.industryIdentifiers`. -/
structure IndustryIdentifier where
  type : String
  identifier : String
deriving DecidableEq

/-- The `volumeInfo` object of a catalog record; optional properties are `Option`s. -/
structure VolumeInfo where
  title : Option String := none
  authors : Option (List String) := none
  description : Option String := none
  previewLink : Option String := none
  imageLinks : Option ImageLinks := none
  industryIdentifiers : Option (List IndustryIdentifier) := none
deriving DecidableEq

/-- One catalog entry as returned by the search API. -/
structure BookRecord where
  id : String
  volumeInfo : VolumeInfo
deriving DecidableEq

/-! ## Cover image resolver -/

/-- JavaScript truthiness of a value that is a string, `undefined` or `null`:
only a non-empty string is truthy. -/
def truthy : Option String → Bool
  | none => false
  | some s => s != ""

/-- The JavaScript expression `a || b` on such values. -/
def jsOr (a b : Option String) : Option String :=
  if truthy a then a else b

/-- The expression `links?.extraLarge || ... || links?.smallThumbnail || null`
of App.js 62-69. -/
def googleImage (links : Option ImageLinks) : Option String :=
  jsOr (links.bind (·.extraLarge))
    (jsOr (links.bind (·.large))
      (jsOr (links.bind (·.medium))
        (jsOr (links.bind (·.small))
          (jsOr (links.bind (·.thumbnail))
            (jsOr (links.bind (·.smallThumbnail)) none)))))

/-- The predicate passed to `find` at App.js 74. -/
def isIsbnEntry (e : IndustryIdentifier) : Bool :=
  e.type == "ISBN_13" || e.type == "ISBN_10"

/-- The expression `volumeInfo.industryIdentifiers?.find(...)?.identifier` of App.js 73-75. -/
def isbnOf (volumeInfo : VolumeInfo) : Option String :=
  (volumeInfo.industryIdentifiers.bind (fun ids => ids.find? isIsbnEntry)).map (·.identifier)

/-- The template literal of App.js 78. -/
def openLibraryCover (isbn : String) : String :=
  "https://covers.openlibrary.org/b/isbn/" ++ isbn ++ "-L.jpg"

/-- Embedding of `getBestImage` (App.js 60-82); `none` is the `null` result. -/
def getBestImage (volumeInfo : VolumeInfo) : Option String :=
  let links := volumeInfo.imageLinks
  let img := googleImage links
  if truthy img then img
  else
    let isbn := isbnOf volumeInfo
    if truthy isbn then
      match isbn with
      | some i => some (openLibraryCover i)
      | none => none
    else none

/-- The six size slots of an `imageLinks` object in the priority order of App.js 63-68. -/
def sizesInOrder (l : ImageLinks) : List (Option String) :=
  [l.extraLarge, l.large, l.medium, l.small, l.thumbnail, l.smallThumbnail]

/-! ## Search / pagination controller -/

/-- The `useState` cells of the component (App.js 7-13) that make up the search state.
The empty string is the cleared error; `page` is a JavaScript number, embedded as an
integer (the two agree on every page below 2^53). -/
structure SearchState where
  query : String := ""
  books : List BookRecord := []
  loading : Bool := false
  error : String := ""
  page : Int := 0
  selectedBook : Option BookRecord := none
deriving DecidableEq

/-- The state of the first render: the arguments of the `useState` calls. -/
def initialState : SearchState := {}

/-- The parameters that `searchBooks` puts into the catalog URL (App.js 18). -/
structure CatalogRequest where
  q : String
  startIndex : Int
  maxResults : Nat
deriving DecidableEq

/-- The URL string of App.js 18 for a request. -/
def CatalogRequest.url (r : CatalogRequest) : String :=
  "https://www.googleapis.com/books/v1/volumes?q=" ++ r.q ++ "&startIndex=" ++
    toString r.startIndex ++ "&maxResults=" ++ toString r.maxResults

/-- The `response.data` object of a catalog reply. -/
structure CatalogResponse where
  totalItems : Int
  items : Option (List BookRecord) := none
deriving DecidableEq

/-- How `await axios.get(URL)` ends.

* `ok data`: a reply whose body is a JSON object; `data` is `response.data`.
* `unparsed body`: a reply whose body is not JSON (or is empty).  With its default
  settings axios does not throw on such a body: it resolves with the raw text as
  `response.data`, so `response.data.totalItems` and `response.data.items` are both
  `undefined`.
* `failed`: the awaited call throws (transport failure, error status), or reading
  `response.data.totalItems` throws because `response.data` is `null`. -/
inductive Outcome where
  | ok (data : CatalogResponse)
  | unparsed (body : String)
  | failed
deriving DecidableEq

/-- The synchronous part of `searchBooks` (App.js 16-22), up to the `await`.
`snap` holds the `query` and `page` the function closed over; the setters act on `st`.
Returns the state after the setters and the requests sent. -/
def searchBooksIssue (snap st : SearchState) : SearchState × List CatalogRequest :=
  if snap.query = "" then (st, [])
  else
    let startIndex := snap.page * 10
    ({ st with loading := true, error := "" },
      [{ q := snap.query, startIndex := startIndex, maxResults := 10 }])

/-- The continuation of `searchBooks` after the `await` (App.js 22-35):
the `try` body, the `catch` block and the `finally` block.  On raw text the test
`response.data.totalItems === 0` is false and `response.data.items || []` is `[]`. -/
def searchBooksSettle (o : Outcome) (st : SearchState) : SearchState :=
  let st1 :=
    match o with
    | .ok data =>
      if data.totalItems = 0 then { st with error := "No books found.", books := [] }
      else { st with books := data.items.getD [] }
    | .unparsed _ => { st with books := [] }
    | .failed => { st with error := "Something went wrong. Please try again.", books := [] }
  { st1 with loading := false }

/-- Embedding of `searchBooks` (App.js 15-36) run to completion against the request
outcome `o`, with nothing else happening in between.  `snap` holds the `query` and `page`
the function closed over; the setters act on `st`. -/
def searchBooks (snap : SearchState) (o : Outcome) (st : SearchState) :
    SearchState × List CatalogRequest :=
  if snap.query = "" then (st, [])
  else
    let startIndex := snap.page * 10
    let request : CatalogRequest := { q := snap.query, startIndex := startIndex, maxResults := 10 }
    let st := { st with loading := true }
    let st := { st with error := "" }
    let st :=
      match o with
      | .ok data =>
        if data.totalItems = 0 then
          let st := { st with error := "No books found." }
          { st with books := [] }
        else { st with books := data.items.getD [] }
      | .unparsed _ => { st with books := [] }
      | .failed =>
        let st := { st with error := "Something went wrong. Please try again." }
        { st with books := [] }
    ({ st with loading := false }, [request])

/-- The effect `useEffect(() => { if (query) searchBooks() }, [page])` of App.js 52-57,
run after a render whose state is `cur` when the previous render had state `prev`. -/
def pageEffect (prev cur : SearchState) : SearchState × List CatalogRequest :=
  if cur.page = prev.page then (cur, [])
  else if cur.query ≠ "" then searchBooksIssue cur cur
  else (cur, [])

/-- Re-render after a handler that ran on state `prev` and left the pending state and
requests `r`: the page effect runs and its requests follow the handler's requests. -/
def commit (prev : SearchState) (r : SearchState × List CatalogRequest) :
    SearchState × List CatalogRequest :=
  let e := pageEffect prev r.1
  (e.1, r.2 ++ e.2)

/-- The `onClick` of the Search button (App.js 101-104): `setPage(0); searchBooks();`.
The call to `searchBooks` is the closure of the current render. -/
def onSearchClick (s : SearchState) : SearchState × List CatalogRequest :=
  searchBooksIssue s { s with page := 0 }

/-- The `onClick` of the Next button (App.js 244). -/
def onNextClick (s : SearchState) : SearchState :=
  { s with page := s.page + 1 }

/-- The `onClick` of the Previous button (App.js 237). -/
def onPreviousClick (s : SearchState) : SearchState :=
  { s with page := max (s.page - 1) 0 }

/-- The pagination buttons are rendered only inside `query && ...` (App.js 179)
and `books.length > 0 && ...` (App.js 233). -/
def paginationShown (s : SearchState) : Bool :=
  s.query != "" && decide (0 < s.books.length)

/-- The Next button can be clicked: rendered and not `disabled` (App.js 245). -/
def nextEnabled (s : SearchState) : Bool :=
  paginationShown s && !decide (s.books.length < 10)

/-- The Previous button can be clicked: rendered and not `disabled` (App.js 238). -/
def previousEnabled (s : SearchState) : Bool :=
  paginationShown s && !(s.page == 0)

/-- What can happen to the controller: user actions and the completion of a request.
A completion is allowed in any state, whether or not a request is outstanding. -/
inductive Event where
  | setQuery (text : String)
  | search
  | next
  | previous
  | selectBook (b : Option BookRecord)
  | settle (o : Outcome)

/-- One event on state `s`: the new state and the catalog requests sent, in order. -/
def step (s : SearchState) : Event → SearchState × List CatalogRequest
  | .setQuery text => commit s ({ s with query := text }, [])
  | .search => commit s (onSearchClick s)
  | .next => if nextEnabled s then commit s (onNextClick s, []) else (s, [])
  | .previous => if previousEnabled s then commit s (onPreviousClick s, []) else (s, [])
  | .selectBook b => commit s ({ s with selectedBook := b }, [])
  | .settle o => commit s (searchBooksSettle o s, [])

/-- The state after a sequence of events. -/
def run (s : SearchState) (es : List Event) : SearchState :=
  es.foldl (fun st e => (step st e).1) s

/-! ## Example inputs -/

/-- A record whose only image link is an empty thumbnail URL, with an ISBN-13. -/
def emptyThumbnailInfo : VolumeInfo :=
  { imageLinks := some { thumbnail := some "" },
    industryIdentifiers := some [⟨"ISBN_13", "9780141439518"⟩] }

/-- A record with a medium and a thumbnail link, the large link being empty. -/
def mediumCoverInfo : VolumeInfo :=
  { imageLinks := some { large := some "", medium := some "http://img/m", thumbnail := some "http://img/t" },
    industryIdentifiers := some [⟨"ISBN_13", "9780141439518"⟩] }

/-- A record without image links whose first ISBN entry has an empty identifier. -/
def emptyIsbnInfo : VolumeInfo :=
  { industryIdentifiers := some [⟨"ISBN_13", ""⟩, ⟨"ISBN_10", "0141439513"⟩] }

/-- A record without image links whose second identifier is an ISBN-13. -/
def isbnOnlyInfo : VolumeInfo :=
  { industryIdentifiers := some [⟨"ISSN", "1234-5678"⟩, ⟨"ISBN_13", "9780141439518"⟩] }

/-- A record with an empty thumbnail link and only a non-ISBN identifier. -/
def noCoverInfo : VolumeInfo :=
  { imageLinks := some { thumbnail := some "" },
    industryIdentifiers := some [⟨"ISSN", "1234-5678"⟩] }

/-- A catalog entry used in the controller examples. -/
def sampleBook : BookRecord :=
  { id := "b1", volumeInfo := { title := some "Emma" } }

/-- A full page of ten results. -/
def tenBooks : List BookRecord := List.replicate 10 sampleBook

/-- A reply carrying a full page of results. -/
def fullPageReply : CatalogResponse := { totalItems := 100, items := some tenBooks }

/-- The state after searching for "a" and pressing Next twice, every request having
been answered with a full page. -/
def pageTwoState : SearchState :=
  { query := "a", books := tenBooks, page := 2 }

/-- The state after searching for "a", receiving a full page, and clearing the input box. -/
def clearedQueryState : SearchState :=
  { query := "", books := tenBooks, page := 0 }

/-- A state showing a full first page of results for "emma". -/
def firstPageState : SearchState :=
  { query := "emma", books := tenBooks, page := 0 }

/-- A state showing a last page of nine results for "emma". -/
def lastPageState : SearchState :=
  { query := "emma", books := List.replicate 9 sampleBook, page := 3 }

/-- A state that still shows the message of an earlier empty search. -/
def afterEmptySearchState : SearchState :=
  { query := "emma", error := "No books found.", page := 1 }

/-! ## Resolver lemmas -/

theorem truthy_some_of_ne {u : String} (hu : u ≠ "") : truthy (some u) = true := by
  simp [truthy, hu]

theorem truthy_false_of_empty {o : Option String} (h : ∀ w, o = some w → w = "") :
    truthy o = false := by
  cases o with
  | none => rfl
  | some w => simp [truthy, h w rfl]

theorem jsOr_of_truthy {a b : Option String} (h : truthy a = true) : jsOr a b = a := by
  simp [jsOr, h]

theorem jsOr_of_falsy {a b : Option String} (h : truthy a = false) : jsOr a b = b := by
  simp [jsOr, h]

/-- When the image-link chain yields a truthy value, that value is the result. -/
theorem getBestImage_of_googleImage {v : VolumeInfo} {u : String}
    (h : googleImage v.imageLinks = some u) (hu : u ≠ "") : getBestImage v = some u := by
  simp [getBestImage, h, truthy, hu]

/-- When the image-link chain yields nothing, the result is decided by the ISBN lookup. -/
theorem getBestImage_of_no_googleImage {v : VolumeInfo}
    (h : googleImage v.imageLinks = none) :
    getBestImage v =
      match isbnOf v with
      | some i => if i = "" then none else some (openLibraryCover i)
      | none => none := by
  cases hi : isbnOf v with
  | none => simp [getBestImage, h, truthy, hi]
  | some i =>
    by_cases he : i = ""
    · simp [getBestImage, h, truthy, hi, he]
    · simp [getBestImage, h, truthy, hi, he]

/-- The first entry satisfying a predicate, located by its index, is what `find?` returns. -/
theorem find?_of_first_index {α : Type} (p : α → Bool) :
    ∀ (xs : List α) (i : Nat) (e : α), xs[i]? = some e → p e = true →
      (∀ j, j < i → ∀ x, xs[j]? = some x → p x = false) → xs.find? p = some e
  | [], i, e, h, _, _ => by simp at h
  | x :: xs, 0, e, h, hp, _ => by
    simp at h
    subst h
    simp [List.find?, hp]
  | x :: xs, i + 1, e, h, hp, hprev => by
    have hx : p x = false := hprev 0 (Nat.succ_pos i) x (by simp)
    have ih := find?_of_first_index p xs i e (by simpa using h) hp
      (fun j hj y hy => hprev (j + 1) (Nat.succ_lt_succ hj) y (by simpa using hy))
    simp [List.find?, hx, ih]

/-- No entry satisfies the predicate: `find?` returns nothing. -/
theorem find?_none_of_all_false {α : Type} (p : α → Bool) (xs : List α)
    (h : ∀ x ∈ xs, p x = false) : xs.find? p = none :=
  List.find?_eq_none.mpr (fun x hx => by simp [h x hx])

/-! ## Cover image resolver: claims -/

/-- C1 (as stated, refuted): `emptyThumbnailInfo` has an `imageLinks` object with one
entry, the thumbnail, whose URL is the empty string.  The highest-priority size that is
present is that thumbnail, yet `getBestImage` does not return its URL: it falls through
to the ISBN fallback. -/
theorem getBestImage_present_entry_falls_through :
    emptyThumbnailInfo.imageLinks = some { thumbnail := some "" } ∧
    sizesInOrder { thumbnail := some "" } = [none, none, none, none, some "", none] ∧
    getBestImage emptyThumbnailInfo ≠ some "" ∧
    getBestImage emptyThumbnailInfo =
      some "https://covers.openlibrary.org/b/isbn/9780141439518-L.jpg" := by
  decide

/-- C1 (amended): when the size at position `i` of the priority order extraLarge, large,
medium, small, thumbnail, smallThumbnail holds a non-empty URL `u`, and every size before
it is absent or holds the empty string, `getBestImage` returns exactly `u`; it does not
reach the ISBN fallback or the null result. -/
theorem getBestImage_first_usable (v : VolumeInfo) (l : ImageLinks) (i : Nat) (u : String)
    (hl : v.imageLinks = some l)
    (hi : (sizesInOrder l)[i]? = some (some u)) (hu : u ≠ "")
    (hprev : ∀ j, j < i → ∀ w, (sizesInOrder l)[j]? = some (some w) → w = "") :
    getBestImage v = some u := by
  apply getBestImage_of_googleImage _ hu
  have hT := truthy_some_of_ne hu
  have hF : ∀ j, j < i → ∀ o, (sizesInOrder l)[j]? = some o → truthy o = false := by
    intro j hj o ho
    apply truthy_false_of_empty
    intro w hw
    subst hw
    exact hprev j hj w ho
  rw [hl]
  match i, hi, hF with
  | 0, hi, _ =>
    simp [sizesInOrder] at hi
    simp [googleImage, hi, jsOr_of_truthy hT]
  | 1, hi, hF =>
    simp [sizesInOrder] at hi
    have h0 := hF 0 (by decide) l.extraLarge (by simp [sizesInOrder])
    simp [googleImage, hi, jsOr_of_truthy hT, jsOr_of_falsy h0]
  | 2, hi, hF =>
    simp [sizesInOrder] at hi
    have h0 := hF 0 (by decide) l.extraLarge (by simp [sizesInOrder])
    have h1 := hF 1 (by decide) l.large (by simp [sizesInOrder])
    simp [googleImage, hi, jsOr_of_truthy hT, jsOr_of_falsy h0, jsOr_of_falsy h1]
  | 3, hi, hF =>
    simp [sizesInOrder] at hi
    have h0 := hF 0 (by decide) l.extraLarge (by simp [sizesInOrder])
    have h1 := hF 1 (by decide) l.large (by simp [sizesInOrder])
    have h2 := hF 2 (by decide) l.medium (by simp [sizesInOrder])
    simp [googleImage, hi, jsOr_of_truthy hT, jsOr_of_falsy h0, jsOr_of_falsy h1,
      jsOr_of_falsy h2]
  | 4, hi, hF =>
    simp [sizesInOrder] at hi
    have h0 := hF 0 (by decide) l.extraLarge (by simp [sizesInOrder])
    have h1 := hF 1 (by decide) l.large (by simp [sizesInOrder])
    have h2 := hF 2 (by decide) l.medium (by simp [sizesInOrder])
    have h3 := hF 3 (by decide) l.small (by simp [sizesInOrder])
    simp [googleImage, hi, jsOr_of_truthy hT, jsOr_of_falsy h0, jsOr_of_falsy h1,
      jsOr_of_falsy h2, jsOr_of_falsy h3]
  | 5, hi, hF =>
    simp [sizesInOrder] at hi
    have h0 := hF 0 (by decide) l.extraLarge (by simp [sizesInOrder])
    have h1 := hF 1 (by decide) l.large (by simp [sizesInOrder])
    have h2 := hF 2 (by decide) l.medium (by simp [sizesInOrder])
    have h3 := hF 3 (by decide) l.small (by simp [sizesInOrder])
    have h4 := hF 4 (by decide) l.thumbnail (by simp [sizesInOrder])
    simp [googleImage, hi, jsOr_of_truthy hT, jsOr_of_falsy h0, jsOr_of_falsy h1,
      jsOr_of_falsy h2, jsOr_of_falsy h3, jsOr_of_falsy h4]
  | n + 6, hi, _ =>
    simp [sizesInOrder] at hi

/-- Witness for C1 (amended): the large link of `mediumCoverInfo` is empty, so the medium
link, at position 2, is returned. -/
theorem getBestImage_first_usable_witness :
    getBestImage mediumCoverInfo = some "http://img/m" :=
  getBestImage_first_usable mediumCoverInfo
    { large := some "", medium := some "http://img/m", thumbnail := some "http://img/t" }
    2 "http://img/m" rfl (by decide) (by decide)
    (fun j hj w hw => by
      match j, hj, hw with
      | 0, _, hw => simp [sizesInOrder] at hw
      | 1, _, hw => simpa [sizesInOrder] using hw.symm)

/-- C2 (as stated, refuted): `emptyIsbnInfo` has no `imageLinks` and its first identifier
of type "ISBN_13" or "ISBN_10" carries the empty identifier.  `getBestImage` returns the
null result, not the cover URL built from that identifier. -/
theorem getBestImage_empty_isbn_no_url :
    emptyIsbnInfo.imageLinks = none ∧
    emptyIsbnInfo.industryIdentifiers = some [⟨"ISBN_13", ""⟩, ⟨"ISBN_10", "0141439513"⟩] ∧
    getBestImage emptyIsbnInfo ≠ some ("https://covers.openlibrary.org/b/isbn/" ++ "" ++ "-L.jpg") ∧
    getBestImage emptyIsbnInfo = none := by
  decide

/-- C2 (amended): for a record with no `imageLinks`, when the entry `e` at position `i` of
`industryIdentifiers` has type "ISBN_13" or "ISBN_10", no earlier entry has such a type,
and the identifier of `e` is not empty, `getBestImage` returns
"https://covers.openlibrary.org/b/isbn/" ++ identifier ++ "-L.jpg". -/
theorem getBestImage_isbn_fallback (v : VolumeInfo) (ids : List IndustryIdentifier)
    (i : Nat) (e : IndustryIdentifier)
    (hl : v.imageLinks = none) (hids : v.industryIdentifiers = some ids)
    (hi : ids[i]? = some e) (ht : e.type = "ISBN_13" ∨ e.type = "ISBN_10")
    (hprev : ∀ j, j < i → ∀ x, ids[j]? = some x → x.type ≠ "ISBN_13" ∧ x.type ≠ "ISBN_10")
    (hne : e.identifier ≠ "") :
    getBestImage v =
      some ("https://covers.openlibrary.org/b/isbn/" ++ e.identifier ++ "-L.jpg") := by
  have hfind : ids.find? isIsbnEntry = some e := by
    apply find?_of_first_index isIsbnEntry ids i e hi
    · rcases ht with h | h <;> simp [isIsbnEntry, h]
    · intro j hj x hx
      have := hprev j hj x hx
      simp [isIsbnEntry, this.1, this.2]
  have hg : googleImage v.imageLinks = none := by
    rw [hl]; rfl
  rw [getBestImage_of_no_googleImage hg]
  simp [isbnOf, hids, hfind, hne, openLibraryCover]

/-- Witness for C2 (amended): the ISBN-13 entry of `isbnOnlyInfo` follows a non-ISBN entry. -/
theorem getBestImage_isbn_fallback_witness :
    getBestImage isbnOnlyInfo =
      some ("https://covers.openlibrary.org/b/isbn/" ++ "9780141439518" ++ "-L.jpg") :=
  getBestImage_isbn_fallback isbnOnlyInfo
    [⟨"ISSN", "1234-5678"⟩, ⟨"ISBN_13", "9780141439518"⟩] 1 ⟨"ISBN_13", "9780141439518"⟩
    rfl rfl rfl (Or.inl rfl)
    (fun j hj x hx => by
      match j, hj, hx with
      | 0, _, hx =>
        simp at hx
        subst hx
        decide)
    (by decide)

/-- C9: a record in which every image link is absent or the empty string (or that has no
`imageLinks` at all) and in which no identifier has type "ISBN_13" or "ISBN_10"
(`industryIdentifiers` absent, empty, or holding other types only) resolves to the null
result. -/
theorem getBestImage_none (v : VolumeInfo)
    (hlinks : ∀ l, v.imageLinks = some l → ∀ o ∈ sizesInOrder l, ∀ w, o = some w → w = "")
    (hids : ∀ ids, v.industryIdentifiers = some ids →
      ∀ e ∈ ids, e.type ≠ "ISBN_13" ∧ e.type ≠ "ISBN_10") :
    getBestImage v = none := by
  have hg : googleImage v.imageLinks = none := by
    cases hv : v.imageLinks with
    | none => rfl
    | some l =>
      have hF : ∀ o ∈ sizesInOrder l, truthy o = false :=
        fun o ho => truthy_false_of_empty (hlinks l hv o ho)
      have h0 := hF l.extraLarge (by simp [sizesInOrder])
      have h1 := hF l.large (by simp [sizesInOrder])
      have h2 := hF l.medium (by simp [sizesInOrder])
      have h3 := hF l.small (by simp [sizesInOrder])
      have h4 := hF l.thumbnail (by simp [sizesInOrder])
      have h5 := hF l.smallThumbnail (by simp [sizesInOrder])
      simp [googleImage, jsOr_of_falsy h0, jsOr_of_falsy h1, jsOr_of_falsy h2,
        jsOr_of_falsy h3, jsOr_of_falsy h4, jsOr_of_falsy h5]
  rw [getBestImage_of_no_googleImage hg]
  cases hv : v.industryIdentifiers with
  | none => simp [isbnOf, hv]
  | some ids =>
    have hfind : ids.find? isIsbnEntry = none := by
      apply find?_none_of_all_false
      intro e he
      have := hids ids hv e he
      simp [isIsbnEntry, this.1, this.2]
    simp [isbnOf, hv, hfind]

/-- Witness for C9: `noCoverInfo` has an empty thumbnail link and an ISSN only. -/
theorem getBestImage_none_witness : getBestImage noCoverInfo = none :=
  getBestImage_none noCoverInfo
    (fun l hl o ho w hw => by
      have hl2 : l = { thumbnail := some "" } := by
        simpa [noCoverInfo] using hl.symm
      subst hl2
      subst hw
      simp [sizesInOrder] at ho
      exact ho)
    (fun ids hids e he => by
      have h2 : ids = [⟨"ISSN", "1234-5678"⟩] := by
        simpa [noCoverInfo] using hids.symm
      subst h2
      simp at he
      subst he
      decide)

/-! ## Controller lemmas -/

theorem searchBooksIssue_of_empty {snap : SearchState} (st : SearchState)
    (h : snap.query = "") : searchBooksIssue snap st = (st, []) := by
  simp [searchBooksIssue, h]

theorem searchBooksIssue_of_query {snap : SearchState} (st : SearchState)
    (h : snap.query ≠ "") :
    searchBooksIssue snap st =
      ({ st with loading := true, error := "" },
        [{ q := snap.query, startIndex := snap.page * 10, maxResults := 10 }]) := by
  simp [searchBooksIssue, h]

/-- Running `searchBooks` to completion is its synchronous part followed by its
continuation. -/
theorem searchBooks_eq_issue_settle (snap st : SearchState) (o : Outcome)
    (h : snap.query ≠ "") :
    searchBooks snap o st =
      (searchBooksSettle o (searchBooksIssue snap st).1, (searchBooksIssue snap st).2) := by
  cases o with
  | ok data =>
    by_cases h0 : data.totalItems = 0 <;>
      simp [searchBooks, searchBooksIssue, searchBooksSettle, h, h0]
  | unparsed body => simp [searchBooks, searchBooksIssue, searchBooksSettle, h]
  | failed => simp [searchBooks, searchBooksIssue, searchBooksSettle, h]

theorem searchBooksIssue_page (snap st : SearchState) :
    (searchBooksIssue snap st).1.page = st.page := by
  unfold searchBooksIssue
  split <;> rfl

theorem searchBooksIssue_query (snap st : SearchState) :
    (searchBooksIssue snap st).1.query = st.query := by
  unfold searchBooksIssue
  split <;> rfl

theorem searchBooksSettle_page (o : Outcome) (st : SearchState) :
    (searchBooksSettle o st).page = st.page := by
  unfold searchBooksSettle
  cases o with
  | ok data => by_cases h : data.totalItems = 0 <;> simp [h]
  | unparsed body => rfl
  | failed => rfl

theorem pageEffect_page (prev cur : SearchState) :
    (pageEffect prev cur).1.page = cur.page := by
  unfold pageEffect
  split
  · rfl
  · split
    · exact searchBooksIssue_page cur cur
    · rfl

theorem commit_page (prev : SearchState) (r : SearchState × List CatalogRequest) :
    (commit prev r).1.page = r.1.page := by
  simp [commit, pageEffect_page]

/-- When the page did not change, the re-render sends nothing and keeps the state. -/
theorem commit_of_same_page (prev : SearchState) (r : SearchState × List CatalogRequest)
    (h : r.1.page = prev.page) : commit prev r = r := by
  simp [commit, pageEffect, h]

/-- The page after one event. -/
theorem step_page (s : SearchState) (e : Event) :
    (step s e).1.page =
      match e with
      | .search => 0
      | .next => if nextEnabled s then s.page + 1 else s.page
      | .previous => if previousEnabled s then max (s.page - 1) 0 else s.page
      | _ => s.page := by
  cases e with
  | setQuery text => simp [step, commit_page]
  | search => simp [step, commit_page, onSearchClick, searchBooksIssue_page]
  | next =>
    by_cases h : nextEnabled s = true
    · simp [step, h, commit_page, onNextClick]
    · simp [step, h]
  | previous =>
    by_cases h : previousEnabled s = true
    · simp [step, h, commit_page, onPreviousClick]
    · simp [step, h]
  | selectBook b => simp [step, commit_page]
  | settle o => simp [step, commit_page, searchBooksSettle_page]

/-- The requests of a click on Search with a non-empty query: one computed from the page
the handler closed over and, when that page was not 0, a second one from page 0. -/
theorem step_search_requests (s : SearchState) (hq : s.query ≠ "") :
    (step s .search).2 =
      if s.page = 0 then [{ q := s.query, startIndex := 0, maxResults := 10 }]
      else [{ q := s.query, startIndex := s.page * 10, maxResults := 10 },
            { q := s.query, startIndex := 0, maxResults := 10 }] := by
  by_cases hp : s.page = 0
  · simp [step, commit, pageEffect, onSearchClick, searchBooksIssue, hq, hp]
  · have hp2 : ¬ (0 = s.page) := fun h => hp h.symm
    simp [step, commit, pageEffect, onSearchClick, searchBooksIssue, hq, hp, hp2]

theorem step_page_nonneg (s : SearchState) (e : Event) (h : 0 ≤ s.page) :
    0 ≤ (step s e).1.page := by
  rw [step_page]
  cases e with
  | setQuery text => exact h
  | search => exact le_refl 0
  | next =>
    by_cases hn : nextEnabled s = true
    · simp only [hn, if_true]; omega
    · simp only [hn]; exact h
  | previous =>
    by_cases hp : previousEnabled s = true
    · simp only [hp, if_true]; exact le_max_right _ _
    · simp only [hp]; exact h
  | selectBook b => exact h
  | settle o => exact h

theorem run_page_nonneg (es : List Event) :
    ∀ s : SearchState, 0 ≤ s.page → 0 ≤ (run s es).page := by
  induction es with
  | nil => intro s h; exact h
  | cons e es ih =>
    intro s h
    exact ih (step s e).1 (step_page_nonneg s e h)

/-! ## Controller: claims -/

/-- C3 (the code departs from the claim): `pageTwoState` is reached by searching for "a"
and pressing Next twice.  Pressing Search there leaves the page at 0, but the request sent
by the click handler itself is built from the page of the render that created the
handler: its `startIndex` is 20.  The request with `startIndex` 0 is a second one, sent
by the page effect after the re-render. -/
theorem search_click_uses_stale_page :
    run initialState
      [.setQuery "a", .search, .settle (.ok fullPageReply),
        .next, .settle (.ok fullPageReply), .next, .settle (.ok fullPageReply)]
      = pageTwoState ∧
    (onSearchClick pageTwoState).2 = [{ q := "a", startIndex := 20, maxResults := 10 }] ∧
    (step pageTwoState .search).1.page = 0 ∧
    (step pageTwoState .search).2 =
      [{ q := "a", startIndex := 20, maxResults := 10 },
       { q := "a", startIndex := 0, maxResults := 10 }] := by
  decide

/-- C4 (as stated, refuted): `clearedQueryState` holds ten results and an empty query.
The Next button is not rendered there, so the page does not become `page + 1`; and the
handler of the button, were it run, would lead to no request either, since the page
effect skips the search when the query is empty. -/
theorem next_without_query_no_refetch :
    clearedQueryState.books.length = 10 ∧
    (step clearedQueryState .next).1.page ≠ clearedQueryState.page + 1 ∧
    (step clearedQueryState .next).2 = [] ∧
    (commit clearedQueryState (onNextClick clearedQueryState, [])).2 = [] := by
  decide

/-- C4 (amended): pressing Next with fewer than 10 results changes nothing and sends no
request; with a non-empty query and exactly 10 results the page becomes `page + 1`, the
query is kept, and exactly one request is sent, for that query with
`startIndex = (page + 1) * 10` and `maxResults = 10`. -/
theorem next_page (s : SearchState) :
    (s.books.length < 10 → step s .next = (s, [])) ∧
    (s.query ≠ "" → s.books.length = 10 →
      (step s .next).1.page = s.page + 1 ∧
      (step s .next).1.query = s.query ∧
      (step s .next).2 =
        [{ q := s.query, startIndex := (s.page + 1) * 10, maxResults := 10 }]) := by
  constructor
  · intro h
    simp [step, nextEnabled, h]
  · intro hq hlen
    have hen : nextEnabled s = true := by
      simp [nextEnabled, paginationShown, hq, hlen]
    have hpage : ¬ (s.page + 1 = s.page) := by omega
    simp [step, hen, commit, pageEffect, onNextClick, hpage, hq, searchBooksIssue]

/-- Witness for C4 (amended): Next on a page of nine results is rejected, and Next on a
full first page of results for "emma" asks for the second page. -/
theorem next_page_witness :
    step lastPageState .next = (lastPageState, []) ∧
    (step firstPageState .next).1.page = 1 ∧
    (step firstPageState .next).1.query = "emma" ∧
    (step firstPageState .next).2 = [{ q := "emma", startIndex := 10, maxResults := 10 }] :=
  ⟨(next_page lastPageState).1 (by decide),
    (next_page firstPageState).2 (by decide) (by decide)⟩

/-- C5: with an empty query `searchBooks` sends no request and returns the state it was
given, every field untouched, whatever the request outcome would have been. -/
theorem searchBooks_empty_query (snap st : SearchState) (o : Outcome)
    (h : snap.query = "") : searchBooks snap o st = (st, []) := by
  simp [searchBooks, h]

/-- Witness for C5: the state with ten results and a cleared input box. -/
theorem searchBooks_empty_query_witness :
    searchBooks clearedQueryState (.ok fullPageReply) clearedQueryState
      = (clearedQueryState, []) :=
  searchBooks_empty_query clearedQueryState clearedQueryState (.ok fullPageReply) rfl

/-- C6: with a non-empty query, a reply whose `totalItems` is 0 makes `searchBooks` send
its one request and end with the error "No books found.", no results and `loading`
false, whatever the `items` field of the reply holds. -/
theorem searchBooks_no_results (snap st : SearchState) (data : CatalogResponse)
    (hq : snap.query ≠ "") (h0 : data.totalItems = 0) :
    (searchBooks snap (.ok data) st).2 =
      [{ q := snap.query, startIndex := snap.page * 10, maxResults := 10 }] ∧
    (searchBooks snap (.ok data) st).1.error = "No books found." ∧
    (searchBooks snap (.ok data) st).1.books = [] ∧
    (searchBooks snap (.ok data) st).1.loading = false := by
  simp [searchBooks, hq, h0]

/-- Witness for C6: a reply with `totalItems` 0 that nevertheless carries ten items. -/
theorem searchBooks_no_results_witness :
    (searchBooks firstPageState (.ok { totalItems := 0, items := some tenBooks })
        firstPageState).2 = [{ q := "emma", startIndex := 0 * 10, maxResults := 10 }] ∧
    (searchBooks firstPageState (.ok { totalItems := 0, items := some tenBooks })
        firstPageState).1.error = "No books found." ∧
    (searchBooks firstPageState (.ok { totalItems := 0, items := some tenBooks })
        firstPageState).1.books = [] ∧
    (searchBooks firstPageState (.ok { totalItems := 0, items := some tenBooks })
        firstPageState).1.loading = false :=
  searchBooks_no_results firstPageState firstPageState
    { totalItems := 0, items := some tenBooks } (by decide) rfl

/-- C7 (as stated, refuted): a reply whose body cannot be parsed is a failure that does
not throw.  From the full first page for "emma" the search then ends with no results and
`loading` false, but with the error cleared, not with
"Something went wrong. Please try again.". -/
theorem searchBooks_unparsed_reply_no_error :
    firstPageState.query ≠ "" ∧
    (searchBooks firstPageState (.unparsed "<html>Bad Gateway</html>") firstPageState).2 =
      [{ q := "emma", startIndex := 0, maxResults := 10 }] ∧
    (searchBooks firstPageState (.unparsed "<html>Bad Gateway</html>") firstPageState).1.error
      ≠ "Something went wrong. Please try again." ∧
    (searchBooks firstPageState (.unparsed "<html>Bad Gateway</html>") firstPageState).1 =
      { query := "emma", books := [], loading := false, error := "", page := 0 } := by
  decide

/-- C7 (amended): with a non-empty query, a request that fails by throwing (transport
failure) makes `searchBooks` end with the error "Something went wrong. Please try again.",
no results and `loading` false, while the query, the page and the selected book stay as
they were.  A reply whose body cannot be parsed also ends with no results, `loading`
false and query, page and selected book as they were, but sets no error message: the
continuation leaves the error as it finds it, which is the cleared error when the search
ran uninterrupted. -/
theorem searchBooks_failure (snap st : SearchState) (hq : snap.query ≠ "") :
    ((searchBooks snap .failed st).1.error = "Something went wrong. Please try again." ∧
     (searchBooks snap .failed st).1.books = [] ∧
     (searchBooks snap .failed st).1.loading = false ∧
     (searchBooks snap .failed st).1.query = st.query ∧
     (searchBooks snap .failed st).1.page = st.page ∧
     (searchBooks snap .failed st).1.selectedBook = st.selectedBook) ∧
    (∀ body : String,
      (searchBooks snap (.unparsed body) st).1.error = "" ∧
      (searchBooks snap (.unparsed body) st).1.books = [] ∧
      (searchBooks snap (.unparsed body) st).1.loading = false ∧
      (searchBooks snap (.unparsed body) st).1.query = st.query ∧
      (searchBooks snap (.unparsed body) st).1.page = st.page ∧
      (searchBooks snap (.unparsed body) st).1.selectedBook = st.selectedBook) ∧
    (∀ (body : String) (mid : SearchState),
      (searchBooksSettle (.unparsed body) mid).error = mid.error ∧
      (searchBooksSettle (.unparsed body) mid).books = [] ∧
      (searchBooksSettle (.unparsed body) mid).loading = false) := by
  refine ⟨?_, ?_, ?_⟩
  · simp [searchBooks, hq]
  · intro body
    simp [searchBooks, hq]
  · intro body mid
    simp [searchBooksSettle]

/-- Witness for C7 (amended): a failed request, and a reply that is not JSON, from the
full first page for "emma". -/
theorem searchBooks_failure_witness :
    ((searchBooks firstPageState .failed firstPageState).1.error
      = "Something went wrong. Please try again." ∧
    (searchBooks firstPageState .failed firstPageState).1.books = [] ∧
    (searchBooks firstPageState .failed firstPageState).1.loading = false ∧
    (searchBooks firstPageState .failed firstPageState).1.query = firstPageState.query ∧
    (searchBooks firstPageState .failed firstPageState).1.page = firstPageState.page ∧
    (searchBooks firstPageState .failed firstPageState).1.selectedBook
      = firstPageState.selectedBook) ∧
    (searchBooks firstPageState (.unparsed "<html>Bad Gateway</html>") firstPageState).1.error
      = "" ∧
    (searchBooks firstPageState (.unparsed "<html>Bad Gateway</html>") firstPageState).1.books
      = [] :=
  ⟨(searchBooks_failure firstPageState firstPageState (by decide)).1,
    ((searchBooks_failure firstPageState firstPageState (by decide)).2.1
      "<html>Bad Gateway</html>").1,
    ((searchBooks_failure firstPageState firstPageState (by decide)).2.1
      "<html>Bad Gateway</html>").2.1⟩

/-- C8 (as stated, refuted): the error is cleared when a request is sent, not when its
reply arrives.  In the first run one click on Search from page 1 sends two requests; in
the second run two searches overlap, all on page 0.  In both, a reply with `totalItems`
0 arrives first and a reply with a full page arrives last: the state then holds the ten
returned items, `loading` false, and still the error "No books found.". -/
theorem late_success_keeps_error :
    (step afterEmptySearchState .search).2 =
      [{ q := "emma", startIndex := 10, maxResults := 10 },
       { q := "emma", startIndex := 0, maxResults := 10 }] ∧
    run afterEmptySearchState
        [.search, .settle (.ok { totalItems := 0 }), .settle (.ok fullPageReply)] =
      { query := "emma", books := tenBooks, loading := false,
        error := "No books found.", page := 0 } ∧
    (step (run initialState [.setQuery "emma", .search, .setQuery "emmaq"]) .search).2 =
      [{ q := "emmaq", startIndex := 0, maxResults := 10 }] ∧
    run initialState
        [.setQuery "emma", .search, .setQuery "emmaq", .search,
          .settle (.ok { totalItems := 0 }), .settle (.ok fullPageReply)] =
      { query := "emmaq", books := tenBooks, loading := false,
        error := "No books found.", page := 0 } := by
  decide

/-- C8 (amended): with a non-empty query, `searchBooks` clears the error when it sends its
request, whatever error the state held before; the arrival of a reply whose `totalItems`
is not 0 then stores the returned items as results, in the same order (no results when
the reply has no `items` field), sets `loading` false and leaves the error as it finds
it, in whatever state the reply arrives.  Hence a search that runs to its end with no
other reply arriving in between ends with these results, the error cleared and `loading`
false. -/
theorem searchBooks_success (snap st : SearchState) (data : CatalogResponse)
    (hq : snap.query ≠ "") (h0 : data.totalItems ≠ 0) :
    (searchBooksIssue snap st).1.error = "" ∧
    (∀ mid : SearchState,
      step mid (.settle (.ok data)) =
        ({ mid with books := data.items.getD [], loading := false }, [])) ∧
    (data.items = none → ∀ mid : SearchState,
      (step mid (.settle (.ok data))).1.books = []) ∧
    ((searchBooks snap (.ok data) st).1.books = data.items.getD [] ∧
     (searchBooks snap (.ok data) st).1.error = "" ∧
     (searchBooks snap (.ok data) st).1.loading = false) := by
  have hstep : ∀ mid : SearchState,
      step mid (.settle (.ok data)) =
        ({ mid with books := data.items.getD [], loading := false }, []) := by
    intro mid
    simp [step, commit, pageEffect, searchBooksSettle, h0]
  refine ⟨?_, hstep, ?_, ?_⟩
  · simp [searchBooksIssue, hq]
  · intro hn mid
    rw [hstep mid]
    simp [hn]
  · simp [searchBooks, hq, h0]

/-- Witness for C8 (amended): a full page arrives while the state still shows
"No books found.", and a reply without an `items` field arrives in the same state. -/
theorem searchBooks_success_witness :
    ((searchBooksIssue afterEmptySearchState afterEmptySearchState).1.error = "" ∧
     step afterEmptySearchState (.settle (.ok fullPageReply)) =
       ({ afterEmptySearchState with books := tenBooks, loading := false }, []) ∧
     (searchBooks afterEmptySearchState (.ok fullPageReply) afterEmptySearchState).1.books
       = tenBooks ∧
     (searchBooks afterEmptySearchState (.ok fullPageReply) afterEmptySearchState).1.error
       = "") ∧
    (step afterEmptySearchState (.settle (.ok { totalItems := 3 }))).1.books = [] :=
  ⟨⟨(searchBooks_success afterEmptySearchState afterEmptySearchState fullPageReply
      (by decide) (by decide)).1,
    (searchBooks_success afterEmptySearchState afterEmptySearchState fullPageReply
      (by decide) (by decide)).2.1 afterEmptySearchState,
    (searchBooks_success afterEmptySearchState afterEmptySearchState fullPageReply
      (by decide) (by decide)).2.2.2.1,
    (searchBooks_success afterEmptySearchState afterEmptySearchState fullPageReply
      (by decide) (by decide)).2.2.2.2.1⟩,
   (searchBooks_success afterEmptySearchState afterEmptySearchState { totalItems := 3 }
      (by decide) (by decide)).2.2.1 rfl afterEmptySearchState⟩

/-- C10: the page is never negative.  It is 0 at the start; every event (typing a query,
Search, Next, Previous, selecting a book, completion of a request) keeps it at or above
0, so it is at or above 0 after any sequence of events; the Previous handler sets it to
`max (page - 1) 0`, which is also what the Previous event does whenever the pagination
buttons are shown; and from page 0 the Previous event leaves it at 0. -/
theorem page_never_negative :
    initialState.page = 0 ∧
    (∀ (s : SearchState) (e : Event), 0 ≤ s.page → 0 ≤ (step s e).1.page) ∧
    (∀ es : List Event, 0 ≤ (run initialState es).page) ∧
    (∀ s : SearchState, (onPreviousClick s).page = max (s.page - 1) 0) ∧
    (∀ s : SearchState, paginationShown s = true →
      (step s .previous).1.page = max (s.page - 1) 0) ∧
    (∀ s : SearchState, s.page = 0 → (step s .previous).1.page = 0) := by
  refine ⟨rfl, step_page_nonneg, ?_, fun _ => rfl, ?_, ?_⟩
  · intro es
    exact run_page_nonneg es initialState (le_refl 0)
  · intro s hs
    rw [step_page]
    by_cases hp : s.page = 0
    · simp [previousEnabled, hs, hp]
    · simp [previousEnabled, hs, hp]
  · intro s hp
    rw [step_page]
    simp [previousEnabled, hp]

/-- Witness for C10: Previous from page 2 of the results for "a" leads to page 1, and
Previous from the first page of the results for "emma" stays at page 0. -/
theorem page_never_negative_witness :
    0 ≤ (step pageTwoState .previous).1.page ∧
    (step pageTwoState .previous).1.page = max (pageTwoState.page - 1) 0 ∧
    (step firstPageState .previous).1.page = 0 :=
  ⟨page_never_negative.2.1 pageTwoState .previous (by decide),
    page_never_negative.2.2.2.2.1 pageTwoState (by decide),
    page_never_negative.2.2.2.2.2 firstPageState rfl⟩

end BookSearch
